import Mathlib

/-!
Verification of the cost/token calculation core of `rag-cost-calculator`
(`src/unnamed/part_000`): the unit converter (`wordsToTokens` /
`tokensToWords`), the cost calculator (`calculateCosts`) and the backcheck
verifier (`performBackcheck`).

Numbers are embedded as exact rationals (ℚ).  The source performs plain
chained multiply/add/divide arithmetic on JavaScript numbers via mathjs; the
spec's formulas are stated over exact arithmetic, and ℚ realises them.
`Math.ceil` becomes `Int.ceil`, `Math.round` (half-up) becomes
`⌊x + 1/2⌋`, and the `Array.from({length: N})` construction becomes a sum
over `Finset.range ⌊N⌋.toNat` (JS `ToLength` truncates and clamps negatives
to 0).  The price-table lookup `OPENAI_MODELS[key]` becomes an
`Option`-valued lookup, with `?? 0` defaulting modelled by `optInputPrice` /
`optOutputPrice`.  The source's top-level `try/catch` guards against
arithmetic-engine faults; over total ℚ arithmetic no such fault can occur,
so the embedded `calculateCosts` has no fault branch.
-/

namespace RagCost

/-- `WORDS_TO_TOKENS_RATIO = 1.33`, the fixed word→token rate. -/
def wordsToTokensRate : ℚ := 133 / 100

/-- `wordsToTokens(words)`: 0 for `words ≤ 0`, else `Math.ceil(words * 1.33)`. -/
def wordsToTokens (words : ℚ) : ℚ :=
  if words ≤ 0 then 0 else (⌈words * wordsToTokensRate⌉ : ℤ)

/-- `tokensToWords(tokens)`: 0 for `tokens ≤ 0`, else `Math.ceil(tokens / 1.33)`. -/
def tokensToWords (tokens : ℚ) : ℚ :=
  if tokens ≤ 0 then 0 else (⌈tokens / wordsToTokensRate⌉ : ℤ)

/-- `OpenAIModel`: one entry of the price table. -/
structure OpenAIModel where
  name : String
  model_desc : String
  inputPrice : ℚ
  outputPrice : ℚ
deriving DecidableEq

/-- `OPENAI_MODELS`: the static price table, with its single `gpt-4o`
entry (input $0.0025/1K tokens, output $0.01/1K tokens); lookup by key
returns `none` on a miss, as `OPENAI_MODELS[input.selectedModel]` yields
`undefined`. -/
def OPENAI_MODELS (key : String) : Option OpenAIModel :=
  if key = "gpt-4o" then
    some { name := "GPT-40"
           model_desc := "Latest model with vision capabilities, 128K context (Oct 2023)"
           inputPrice := 1 / 400
           outputPrice := 1 / 100 }
  else
    none

/-- `model?.inputPrice ?? 0`. -/
def optInputPrice (model : Option OpenAIModel) : ℚ :=
  match model with
  | some m => m.inputPrice
  | none => 0

/-- `model?.outputPrice ?? 0`. -/
def optOutputPrice (model : Option OpenAIModel) : ℚ :=
  match model with
  | some m => m.outputPrice
  | none => 0

/-- `CalculationInput`. -/
structure CalculationInput where
  selectedModel : String
  dailyUsers : ℚ
  conversationsPerUser : ℚ
  messagesPerConversation : ℚ
  wordsPerChunk : ℚ
  userQueryWords : ℚ
  responseWords : ℚ
  chunksPerQuery : ℚ
deriving DecidableEq

/-- The four expected/actual quantities of a backcheck report. -/
structure BackcheckValues where
  inputTokens : ℚ
  outputTokens : ℚ
  totalMessages : ℚ
  dailyCost : ℚ
deriving DecidableEq

/-- The `details` block of `BackcheckResult`. -/
structure BackcheckDetails where
  inputTokensMatch : Bool
  outputTokensMatch : Bool
  totalMessagesMatch : Bool
  dailyCostMatch : Bool
  expectedValues : BackcheckValues
  actualValues : BackcheckValues
deriving DecidableEq

/-- `BackcheckResult`. -/
structure BackcheckResult where
  isValid : Bool
  details : BackcheckDetails
deriving DecidableEq

/-- `CalculationResult`; `backcheck` is optional in the interface. -/
structure CalculationResult where
  tokensPerMessage : ℚ
  wordsPerMessage : ℚ
  totalDailyMessages : ℚ
  dailyCost : ℚ
  monthlyCost : ℚ
  annualCost : ℚ
  costPerMessage : ℚ
  costPerUser : ℚ
  averageHistoryTokens : ℚ
  backcheck : Option BackcheckResult
deriving DecidableEq

/-- JavaScript `Math.round`: round half away from zero towards +∞,
i.e. `⌊x + 1/2⌋`. -/
def jsRound (x : ℚ) : ℚ := (⌊x + 1 / 2⌋ : ℤ)

/-- `performBackcheck(input, result, model, totalInputTokens, outputTokens)`:
recompute expected total messages and expected daily cost, compare with the
result's values with tolerance `0.0001`, with both token flags hard-coded
true. -/
def performBackcheck (input : CalculationInput) (result : CalculationResult)
    (model : Option OpenAIModel) (totalInputTokens outputTokens : ℚ) :
    BackcheckResult :=
  let expectedTotalMessages :=
    input.dailyUsers * input.conversationsPerUser * input.messagesPerConversation
  let expectedDailyCost :=
    totalInputTokens * expectedTotalMessages * optInputPrice model / 1000 +
      outputTokens * expectedTotalMessages * optOutputPrice model / 1000
  let actualTotalMessages := result.totalDailyMessages
  let actualDailyCost := result.dailyCost
  let totalMessagesMatch :=
    decide (|expectedTotalMessages - actualTotalMessages| < 1 / 10000)
  let dailyCostMatch := decide (|expectedDailyCost - actualDailyCost| < 1 / 10000)
  let inputTokensMatch := true
  let outputTokensMatch := true
  { isValid := totalMessagesMatch && dailyCostMatch && inputTokensMatch &&
      outputTokensMatch
    details :=
      { inputTokensMatch := inputTokensMatch
        outputTokensMatch := outputTokensMatch
        totalMessagesMatch := totalMessagesMatch
        dailyCostMatch := dailyCostMatch
        expectedValues :=
          { inputTokens := totalInputTokens
            outputTokens := outputTokens
            totalMessages := expectedTotalMessages
            dailyCost := expectedDailyCost }
        actualValues :=
          { inputTokens := totalInputTokens
            outputTokens := outputTokens
            totalMessages := actualTotalMessages
            dailyCost := actualDailyCost } } }

/-- `chunkTokens = wordsToTokens(input.wordsPerChunk)`. -/
def chunkTokensOf (input : CalculationInput) : ℚ :=
  wordsToTokens input.wordsPerChunk

/-- `queryTokens = wordsToTokens(input.userQueryWords)`. -/
def queryTokensOf (input : CalculationInput) : ℚ :=
  wordsToTokens input.userQueryWords

/-- `outputTokens = wordsToTokens(input.responseWords)`. -/
def outputTokensOf (input : CalculationInput) : ℚ :=
  wordsToTokens input.responseWords

/-- `getHistoryTokensForMessage(messageIndex)`: message 0 carries no
history; message `i` carries `i * (queryTokens + outputTokens)`. -/
def getHistoryTokensForMessage (input : CalculationInput)
    (messageIndex : ℕ) : ℚ :=
  if messageIndex = 0 then 0
  else (messageIndex : ℚ) * (queryTokensOf input + outputTokensOf input)

/-- `totalHistoryTokens`: sum of per-message history over the
`Array.from({length: messagesPerConversation})` index range (JS `ToLength`
truncates the length and clamps negatives to 0). -/
def totalHistoryTokensOf (input : CalculationInput) : ℚ :=
  ∑ i ∈ Finset.range (⌊input.messagesPerConversation⌋.toNat),
    getHistoryTokensForMessage input i

/-- `averageHistoryTokens = totalHistoryTokens / input.messagesPerConversation`
(the unrounded value). -/
def averageHistoryTokensOf (input : CalculationInput) : ℚ :=
  totalHistoryTokensOf input / input.messagesPerConversation

/-- `totalInputTokens = chunksPerQuery * chunkTokens + queryTokens +
averageHistoryTokens`. -/
def totalInputTokensOf (input : CalculationInput) : ℚ :=
  input.chunksPerQuery * chunkTokensOf input + queryTokensOf input +
    averageHistoryTokensOf input

/-- `totalDailyMessages = dailyUsers * conversationsPerUser *
messagesPerConversation`. -/
def totalDailyMessagesOf (input : CalculationInput) : ℚ :=
  input.dailyUsers * input.conversationsPerUser * input.messagesPerConversation

/-- Daily cost formula:
`totalInputTokens * totalDailyMessages / 1000 * inputPrice +
 outputTokens * totalDailyMessages / 1000 * outputPrice`. -/
def dailyCostFormula (totalInputTokens outputTokens totalDailyMessages
    inputPrice outputPrice : ℚ) : ℚ :=
  totalInputTokens * totalDailyMessages / 1000 * inputPrice +
    outputTokens * totalDailyMessages / 1000 * outputPrice

/-- The all-zero result returned on the zero-guard path, with its
self-consistent all-true backcheck. -/
def zeroGuardResult : CalculationResult :=
  { tokensPerMessage := 0
    wordsPerMessage := 0
    totalDailyMessages := 0
    dailyCost := 0
    monthlyCost := 0
    annualCost := 0
    costPerMessage := 0
    costPerUser := 0
    averageHistoryTokens := 0
    backcheck := some
      { isValid := true
        details :=
          { inputTokensMatch := true
            outputTokensMatch := true
            totalMessagesMatch := true
            dailyCostMatch := true
            expectedValues :=
              { inputTokens := 0, outputTokens := 0, totalMessages := 0
                dailyCost := 0 }
            actualValues :=
              { inputTokens := 0, outputTokens := 0, totalMessages := 0
                dailyCost := 0 } } } }

/-- `calculateCosts(input)`: the main entry point.  Zero-guard on the three
usage counts, then token conversion, history amortization, cost derivation
and the attached backcheck.  (The source's `try/catch` fault branch is
unreachable over total exact arithmetic and has no counterpart here.) -/
def calculateCosts (input : CalculationInput) : CalculationResult :=
  let model := OPENAI_MODELS input.selectedModel
  if input.dailyUsers = 0 ∨ input.conversationsPerUser = 0 ∨
      input.messagesPerConversation = 0 then
    zeroGuardResult
  else
    let outputTokens := outputTokensOf input
    let averageHistoryTokens := averageHistoryTokensOf input
    let totalInputTokens := totalInputTokensOf input
    let tokensPerMessage := totalInputTokens + outputTokens
    let wordsPerMessage := tokensToWords (totalInputTokens + outputTokens)
    let totalDailyMessages := totalDailyMessagesOf input
    let dailyCost := dailyCostFormula totalInputTokens outputTokens
      totalDailyMessages (optInputPrice model) (optOutputPrice model)
    let monthlyCost := dailyCost * 30
    let annualCost := dailyCost * 365
    let costPerMessage :=
      if totalDailyMessages > 0 then monthlyCost / (totalDailyMessages * 30)
      else 0
    let costPerUser :=
      if input.dailyUsers > 0 then monthlyCost / input.dailyUsers else 0
    let result : CalculationResult :=
      { tokensPerMessage := tokensPerMessage
        wordsPerMessage := wordsPerMessage
        totalDailyMessages := totalDailyMessages
        dailyCost := dailyCost
        monthlyCost := monthlyCost
        annualCost := annualCost
        costPerMessage := costPerMessage
        costPerUser := costPerUser
        averageHistoryTokens := jsRound averageHistoryTokens
        backcheck := none }
    let backcheck := performBackcheck input result model totalInputTokens
      outputTokens
    { result with backcheck := some backcheck }

/-- The daily cost of the non-guarded path, as a function of the input
(the `dailyCost` local of `calculateCosts`). -/
def dailyCostOf (input : CalculationInput) : ℚ :=
  dailyCostFormula (totalInputTokensOf input) (outputTokensOf input)
    (totalDailyMessagesOf input)
    (optInputPrice (OPENAI_MODELS input.selectedModel))
    (optOutputPrice (OPENAI_MODELS input.selectedModel))

/-- The reference configuration of the spec's concrete scenario:
`gpt-4o`, 100 daily users, 3 conversations/user, 5 messages/conversation,
200 words/chunk, 18 query words, 60 response words, 2 chunks/query. -/
def refInput : CalculationInput :=
  { selectedModel := "gpt-4o"
    dailyUsers := 100
    conversationsPerUser := 3
    messagesPerConversation := 5
    wordsPerChunk := 200
    userQueryWords := 18
    responseWords := 60
    chunksPerQuery := 2 }

/-- The reference configuration with a model identifier absent from the
price table. -/
def noModelInput : CalculationInput :=
  { refInput with selectedModel := "gpt-5-mini" }

/-- The reference configuration with a single message per conversation. -/
def oneMsgInput : CalculationInput :=
  { refInput with messagesPerConversation := 1 }

/-- The reference configuration with zero daily users. -/
def zeroUsersInput : CalculationInput :=
  { refInput with dailyUsers := 0 }

/-- The reference configuration with a negative daily-user count. -/
def negUsersInput : CalculationInput :=
  { refInput with dailyUsers := -1 }

/-- The reference configuration with a negative conversations-per-user
count. -/
def negConvInput : CalculationInput :=
  { refInput with conversationsPerUser := -1 }

/-- The reference configuration with a strongly negative chunks-per-query
count. -/
def negChunksInput : CalculationInput :=
  { refInput with chunksPerQuery := -100 }

/-! ## Helper lemmas -/

/-- The tolerance comparison of two identical quantities always succeeds. -/
lemma decide_match_self (x : ℚ) : decide (|x - x| < 1 / 10000) = true := by
  rw [sub_self, abs_zero, decide_eq_true_eq]
  norm_num

/-- The backcheck's expected daily cost and the calculator's daily cost
are the same rational number (they differ only in association), so the
tolerance comparison succeeds. -/
lemma decide_cost_match (tIT oT M p q : ℚ) :
    decide (|tIT * M * p / 1000 + oT * M * q / 1000 -
      (tIT * M / 1000 * p + oT * M / 1000 * q)| < 1 / 10000) = true := by
  have h : tIT * M * p / 1000 + oT * M * q / 1000 -
      (tIT * M / 1000 * p + oT * M / 1000 * q) = 0 := by ring
  rw [h, abs_zero, decide_eq_true_eq]
  norm_num

/-- On a non-degenerate input, `calculateCosts` takes the main path and
returns exactly this record, backcheck included. -/
lemma calculateCosts_of_ne (input : CalculationInput)
    (h1 : input.dailyUsers ≠ 0) (h2 : input.conversationsPerUser ≠ 0)
    (h3 : input.messagesPerConversation ≠ 0) :
    calculateCosts input =
      { tokensPerMessage := totalInputTokensOf input + outputTokensOf input
        wordsPerMessage := tokensToWords (totalInputTokensOf input + outputTokensOf input)
        totalDailyMessages := totalDailyMessagesOf input
        dailyCost := dailyCostOf input
        monthlyCost := dailyCostOf input * 30
        annualCost := dailyCostOf input * 365
        costPerMessage := if totalDailyMessagesOf input > 0 then
          dailyCostOf input * 30 / (totalDailyMessagesOf input * 30) else 0
        costPerUser := if input.dailyUsers > 0 then
          dailyCostOf input * 30 / input.dailyUsers else 0
        averageHistoryTokens := jsRound (averageHistoryTokensOf input)
        backcheck := some
          { isValid := true
            details :=
              { inputTokensMatch := true
                outputTokensMatch := true
                totalMessagesMatch := true
                dailyCostMatch := true
                expectedValues :=
                  { inputTokens := totalInputTokensOf input
                    outputTokens := outputTokensOf input
                    totalMessages := totalDailyMessagesOf input
                    dailyCost := totalInputTokensOf input * totalDailyMessagesOf input *
                        optInputPrice (OPENAI_MODELS input.selectedModel) / 1000 +
                      outputTokensOf input * totalDailyMessagesOf input *
                        optOutputPrice (OPENAI_MODELS input.selectedModel) / 1000 }
                actualValues :=
                  { inputTokens := totalInputTokensOf input
                    outputTokens := outputTokensOf input
                    totalMessages := totalDailyMessagesOf input
                    dailyCost := dailyCostOf input } } } } := by
  rw [calculateCosts, if_neg (by tauto)]
  simp only [performBackcheck, dailyCostOf, dailyCostFormula, totalDailyMessagesOf,
    decide_match_self, decide_cost_match, Bool.and_self, Bool.and_true, Bool.true_and]

/-- Evaluation rule for `wordsToTokens` at a positive input. -/
lemma wordsToTokens_eval (w : ℚ) (n : ℤ) (h0 : 0 < w)
    (hlo : (n : ℚ) - 1 < w * wordsToTokensRate)
    (hhi : w * wordsToTokensRate ≤ n) : wordsToTokens w = n := by
  rw [wordsToTokens, if_neg (not_le.mpr h0), Int.ceil_eq_iff.mpr ⟨hlo, hhi⟩]

/-- Evaluation rule for `tokensToWords` at a positive input. -/
lemma tokensToWords_eval (t : ℚ) (n : ℤ) (h0 : 0 < t)
    (hlo : (n : ℚ) - 1 < t / wordsToTokensRate)
    (hhi : t / wordsToTokensRate ≤ n) : tokensToWords t = n := by
  rw [tokensToWords, if_neg (not_le.mpr h0), Int.ceil_eq_iff.mpr ⟨hlo, hhi⟩]

lemma wordsToTokens_200 : wordsToTokens 200 = 266 :=
  wordsToTokens_eval 200 266 (by norm_num)
    (by rw [wordsToTokensRate]; norm_num) (by rw [wordsToTokensRate]; norm_num)

lemma wordsToTokens_18 : wordsToTokens 18 = 24 :=
  wordsToTokens_eval 18 24 (by norm_num)
    (by rw [wordsToTokensRate]; norm_num) (by rw [wordsToTokensRate]; norm_num)

lemma wordsToTokens_60 : wordsToTokens 60 = 80 :=
  wordsToTokens_eval 60 80 (by norm_num)
    (by rw [wordsToTokensRate]; norm_num) (by rw [wordsToTokensRate]; norm_num)

/-- Gauss sum over `ℚ`. -/
lemma sum_range_cast (n : ℕ) :
    (∑ i ∈ Finset.range n, (i : ℚ)) = n * (n - 1) / 2 := by
  induction n with
  | zero => simp
  | succ m ih =>
    rw [Finset.sum_range_succ, ih]
    push_cast
    ring

/-- When the message count is the natural number `n`, the history-token
total is the plain sum `Σ_{i<n} i·(queryTokens+outputTokens)`. -/
lemma totalHistoryTokensOf_sum (input : CalculationInput) (n : ℕ)
    (h : input.messagesPerConversation = (n : ℚ)) :
    totalHistoryTokensOf input =
      ∑ i ∈ Finset.range n, (i : ℚ) * (queryTokensOf input + outputTokensOf input) := by
  rw [totalHistoryTokensOf, h, Int.floor_natCast, Int.toNat_natCast]
  exact Finset.sum_congr rfl
    (fun i _ => show getHistoryTokensForMessage input i =
      (i : ℚ) * (queryTokensOf input + outputTokensOf input) by
        rw [getHistoryTokensForMessage]
        split
        · simp [*]
        · rfl)

/-- Closed form for the total history tokens when the message count is the
natural number `n`. -/
lemma totalHistoryTokensOf_eq (input : CalculationInput) (n : ℕ)
    (h : input.messagesPerConversation = (n : ℚ)) :
    totalHistoryTokensOf input =
      (queryTokensOf input + outputTokensOf input) * ((n : ℚ) * ((n : ℚ) - 1)) / 2 := by
  rw [totalHistoryTokensOf_sum input n h, ← Finset.sum_mul, sum_range_cast]
  ring

/-- Closed form for the unrounded average history tokens. -/
lemma averageHistoryTokensOf_eq (input : CalculationInput) (n : ℕ)
    (hn : n ≠ 0) (h : input.messagesPerConversation = (n : ℚ)) :
    averageHistoryTokensOf input =
      (queryTokensOf input + outputTokensOf input) * ((n : ℚ) - 1) / 2 := by
  have hn' : ((n : ℚ)) ≠ 0 := Nat.cast_ne_zero.mpr hn
  rw [averageHistoryTokensOf, totalHistoryTokensOf_eq input n h, h]
  field_simp
  ring

/-- Evaluation rule for JavaScript rounding. -/
lemma jsRound_eval (x : ℚ) (n : ℤ) (hlo : (n : ℚ) ≤ x + 1 / 2)
    (hhi : x + 1 / 2 < n + 1) : jsRound x = n := by
  rw [jsRound, Int.floor_eq_iff.mpr ⟨hlo, hhi⟩]

/-- `wordsToTokens` never returns a negative value. -/
lemma wordsToTokens_nonneg (w : ℚ) : 0 ≤ wordsToTokens w := by
  rw [wordsToTokens]
  split
  · exact le_refl 0
  · rename_i hw
    have hw' : 0 < w := not_le.mp hw
    have : (0 : ℤ) ≤ ⌈w * wordsToTokensRate⌉ :=
      Int.ceil_nonneg (by rw [wordsToTokensRate]; positivity)
    exact_mod_cast this

/-- `wordsToTokens` of a positive word count is at least one token. -/
lemma wordsToTokens_one_le (w : ℚ) (hw : 0 < w) : 1 ≤ wordsToTokens w := by
  rw [wordsToTokens, if_neg (not_le.mpr hw)]
  have hr : (0 : ℚ) < wordsToTokensRate := by rw [wordsToTokensRate]; norm_num
  have h1 : 0 < ⌈w * wordsToTokensRate⌉ := Int.ceil_pos.mpr (by positivity)
  have h2 : (1 : ℤ) ≤ ⌈w * wordsToTokensRate⌉ := h1
  exact_mod_cast h2

lemma wordsToTokens_10 : wordsToTokens 10 = 14 :=
  wordsToTokens_eval 10 14 (by norm_num)
    (by rw [wordsToTokensRate]; norm_num) (by rw [wordsToTokensRate]; norm_num)

lemma tokensToWords_14 : tokensToWords 14 = 11 :=
  tokensToWords_eval 14 11 (by norm_num)
    (by rw [wordsToTokensRate]; norm_num) (by rw [wordsToTokensRate]; norm_num)

lemma tokensToWords_1000000 : tokensToWords 1000000 = 751880 :=
  tokensToWords_eval 1000000 751880 (by norm_num)
    (by rw [wordsToTokensRate]; norm_num) (by rw [wordsToTokensRate]; norm_num)

/-- Every per-message history contribution is nonnegative, so the total
is. -/
lemma totalHistoryTokensOf_nonneg (input : CalculationInput) :
    0 ≤ totalHistoryTokensOf input := by
  rw [totalHistoryTokensOf]
  apply Finset.sum_nonneg
  intro i _
  rw [getHistoryTokensForMessage]
  split
  · exact le_refl 0
  · exact mul_nonneg (Nat.cast_nonneg i)
      (add_nonneg (wordsToTokens_nonneg _) (wordsToTokens_nonneg _))

/-- With a positive message count the unrounded average history is
nonnegative. -/
lemma averageHistoryTokensOf_nonneg (input : CalculationInput)
    (hn : 0 < input.messagesPerConversation) :
    0 ≤ averageHistoryTokensOf input := by
  rw [averageHistoryTokensOf]
  exact div_nonneg (totalHistoryTokensOf_nonneg input) hn.le

/-- With a positive message count and nonnegative chunks-per-query the
total input tokens are nonnegative. -/
lemma totalInputTokensOf_nonneg (input : CalculationInput)
    (hn : 0 < input.messagesPerConversation)
    (hcq : 0 ≤ input.chunksPerQuery) :
    0 ≤ totalInputTokensOf input := by
  rw [totalInputTokensOf]
  have h1 : 0 ≤ input.chunksPerQuery * chunkTokensOf input :=
    mul_nonneg hcq (wordsToTokens_nonneg _)
  have h2 : 0 ≤ queryTokensOf input := wordsToTokens_nonneg _
  have h3 : 0 ≤ averageHistoryTokensOf input :=
    averageHistoryTokensOf_nonneg input hn
  linarith

/-- The daily cost factored as
`totalDailyMessages * (tIT·inputPrice + oT·outputPrice) / 1000`. -/
lemma dailyCostOf_factor (input : CalculationInput) :
    dailyCostOf input =
      totalDailyMessagesOf input *
        (totalInputTokensOf input * optInputPrice (OPENAI_MODELS input.selectedModel) +
          outputTokensOf input * optOutputPrice (OPENAI_MODELS input.selectedModel)) /
        1000 := by
  rw [dailyCostOf, dailyCostFormula]
  ring

/-- With a resolved, positively-priced model, nonnegative chunks-per-query,
a positive message count and positive response words, the per-message cost
factor is strictly positive. -/
lemma cost_factor_pos (input : CalculationInput) (model : OpenAIModel)
    (hm : OPENAI_MODELS input.selectedModel = some model)
    (hp : 0 < model.inputPrice) (hq : 0 < model.outputPrice)
    (hn : 0 < input.messagesPerConversation)
    (hcq : 0 ≤ input.chunksPerQuery) (hrw : 0 < input.responseWords) :
    0 < totalInputTokensOf input * optInputPrice (OPENAI_MODELS input.selectedModel) +
      outputTokensOf input * optOutputPrice (OPENAI_MODELS input.selectedModel) := by
  have hp' : optInputPrice (OPENAI_MODELS input.selectedModel) = model.inputPrice := by
    rw [hm, optInputPrice]
  have hq' : optOutputPrice (OPENAI_MODELS input.selectedModel) = model.outputPrice := by
    rw [hm, optOutputPrice]
  rw [hp', hq']
  have h1 : 0 ≤ totalInputTokensOf input := totalInputTokensOf_nonneg input hn hcq
  have h2 : (1 : ℚ) ≤ outputTokensOf input := wordsToTokens_one_le _ hrw
  nlinarith

/-- Total input tokens at the reference token fields, with the
chunks-per-query left free: `chunksPerQuery · 266 + 24 + 208`. -/
lemma totalInputTokensOf_ref_fields (input : CalculationInput)
    (hwc : input.wordsPerChunk = 200) (huq : input.userQueryWords = 18)
    (hrw : input.responseWords = 60)
    (hmsg : input.messagesPerConversation = 5) :
    totalInputTokensOf input = input.chunksPerQuery * 266 + 232 := by
  have hmsg' : input.messagesPerConversation = ((5 : ℕ) : ℚ) := by
    rw [hmsg]
    norm_num
  rw [totalInputTokensOf, averageHistoryTokensOf_eq input 5 (by norm_num) hmsg',
    chunkTokensOf, queryTokensOf, outputTokensOf, hwc, huq, hrw,
    wordsToTokens_200, wordsToTokens_18, wordsToTokens_60]
  push_cast
  ring

/-- Daily cost at the reference token fields for the `gpt-4o` model. -/
lemma dailyCostOf_gpt4o (input : CalculationInput)
    (hsel : input.selectedModel = "gpt-4o")
    (hwc : input.wordsPerChunk = 200) (huq : input.userQueryWords = 18)
    (hrw : input.responseWords = 60)
    (hmsg : input.messagesPerConversation = 5) :
    dailyCostOf input =
      (input.chunksPerQuery * 266 + 232) * totalDailyMessagesOf input / 1000 * (1 / 400) +
        80 * totalDailyMessagesOf input / 1000 * (1 / 100) := by
  rw [dailyCostOf, dailyCostFormula, totalInputTokensOf_ref_fields input hwc huq hrw hmsg,
    outputTokensOf, hrw, wordsToTokens_60, hsel]
  norm_num [OPENAI_MODELS, optInputPrice, optOutputPrice]

/-! ## Claims -/

/-- C7: every invocation of `performBackcheck`, whatever its arguments,
returns a report whose two token-match flags are `true` and whose
expected and actual token values both equal the corresponding argument:
the token comparisons never fail, because no independent token
recomputation exists. -/
theorem performBackcheck_token_flags (input : CalculationInput)
    (result : CalculationResult) (model : Option OpenAIModel)
    (totalInputTokens outputTokens : ℚ) :
    (performBackcheck input result model totalInputTokens
        outputTokens).details.inputTokensMatch = true ∧
    (performBackcheck input result model totalInputTokens
        outputTokens).details.outputTokensMatch = true ∧
    (performBackcheck input result model totalInputTokens
        outputTokens).details.expectedValues.inputTokens = totalInputTokens ∧
    (performBackcheck input result model totalInputTokens
        outputTokens).details.actualValues.inputTokens = totalInputTokens ∧
    (performBackcheck input result model totalInputTokens
        outputTokens).details.expectedValues.outputTokens = outputTokens ∧
    (performBackcheck input result model totalInputTokens
        outputTokens).details.actualValues.outputTokens = outputTokens :=
  ⟨rfl, rfl, rfl, rfl, rfl, rfl⟩

/-- C4: `wordsToTokens` is `ceil(words × 1.33)` for positive inputs and 0
for non-positive ones; `tokensToWords` is `ceil(tokens / 1.33)` for
positive inputs and 0 for non-positive ones; concrete values
`wordsToTokens 10 = 14`, `wordsToTokens (-1) = 0`, `tokensToWords 14 = 11`,
`tokensToWords 1000000 = 751880`. -/
theorem unit_conversion_spec :
    (∀ w : ℚ, 0 < w → wordsToTokens w = ((⌈w * (133 / 100)⌉ : ℤ) : ℚ)) ∧
    (∀ w : ℚ, w ≤ 0 → wordsToTokens w = 0) ∧
    (∀ t : ℚ, 0 < t → tokensToWords t = ((⌈t / (133 / 100)⌉ : ℤ) : ℚ)) ∧
    (∀ t : ℚ, t ≤ 0 → tokensToWords t = 0) ∧
    wordsToTokens 10 = 14 ∧ wordsToTokens (-1) = 0 ∧
    tokensToWords 14 = 11 ∧ tokensToWords 1000000 = 751880 := by
  refine ⟨?_, ?_, ?_, ?_, wordsToTokens_10, ?_, tokensToWords_14,
    tokensToWords_1000000⟩
  · intro w hw
    rw [wordsToTokens, if_neg (not_le.mpr hw), wordsToTokensRate]
  · intro w hw
    rw [wordsToTokens, if_pos hw]
  · intro t ht
    rw [tokensToWords, if_neg (not_le.mpr ht), wordsToTokensRate]
  · intro t ht
    rw [tokensToWords, if_pos ht]
  · rw [wordsToTokens, if_pos (by norm_num)]

/-- Witness for C4 at concrete inputs. -/
theorem unit_conversion_spec_witness :
    (0 : ℚ) < 10 ∧ (-1 : ℚ) ≤ 0 ∧
    wordsToTokens 10 = ((⌈(10 : ℚ) * (133 / 100)⌉ : ℤ) : ℚ) ∧
    wordsToTokens (-1) = 0 :=
  ⟨by norm_num, by norm_num,
    unit_conversion_spec.1 10 (by norm_num),
    unit_conversion_spec.2.2.2.2.2.1⟩

/-- C8: the word→token→word round trip never loses words (two ceilings,
each only rounding up), and for some word count it strictly gains. -/
theorem conversion_roundtrip_ge :
    (∀ w : ℚ, 0 < w → w ≤ tokensToWords (wordsToTokens w)) ∧
    (∃ w : ℚ, 0 < w ∧ w < tokensToWords (wordsToTokens w)) := by
  constructor
  · intro w hw
    have hr : (0 : ℚ) < wordsToTokensRate := by rw [wordsToTokensRate]; norm_num
    rw [wordsToTokens, if_neg (not_le.mpr hw)]
    have hc : w * wordsToTokensRate ≤ ((⌈w * wordsToTokensRate⌉ : ℤ) : ℚ) :=
      Int.le_ceil _
    have hpos : (0 : ℚ) < ((⌈w * wordsToTokensRate⌉ : ℤ) : ℚ) :=
      lt_of_lt_of_le (by positivity) hc
    rw [tokensToWords, if_neg (not_le.mpr hpos)]
    have hdiv : w ≤ ((⌈w * wordsToTokensRate⌉ : ℤ) : ℚ) / wordsToTokensRate :=
      (le_div_iff₀ hr).mpr hc
    exact hdiv.trans (Int.le_ceil _)
  · exact ⟨10, by norm_num, by rw [wordsToTokens_10, tokensToWords_14]; norm_num⟩

/-- Witness for C8 at `w = 10`. -/
theorem conversion_roundtrip_ge_witness :
    (0 : ℚ) < 10 ∧ (10 : ℚ) ≤ tokensToWords (wordsToTokens 10) :=
  ⟨by norm_num, conversion_roundtrip_ge.1 10 (by norm_num)⟩

/-- C2: if any of the three usage counts is exactly 0, `calculateCosts`
short-circuits to the all-zero result with an all-true, all-zero
backcheck. -/
theorem calculateCosts_zero_guard (input : CalculationInput)
    (h : input.dailyUsers = 0 ∨ input.conversationsPerUser = 0 ∨
      input.messagesPerConversation = 0) :
    calculateCosts input =
      { tokensPerMessage := 0
        wordsPerMessage := 0
        totalDailyMessages := 0
        dailyCost := 0
        monthlyCost := 0
        annualCost := 0
        costPerMessage := 0
        costPerUser := 0
        averageHistoryTokens := 0
        backcheck := some
          { isValid := true
            details :=
              { inputTokensMatch := true
                outputTokensMatch := true
                totalMessagesMatch := true
                dailyCostMatch := true
                expectedValues :=
                  { inputTokens := 0, outputTokens := 0, totalMessages := 0
                    dailyCost := 0 }
                actualValues :=
                  { inputTokens := 0, outputTokens := 0, totalMessages := 0
                    dailyCost := 0 } } } } := by
  rw [calculateCosts, if_pos h]
  rfl

/-- Witness for C2 at the reference configuration with zero daily users. -/
theorem calculateCosts_zero_guard_witness :
    zeroUsersInput.dailyUsers = 0 ∧
    (calculateCosts zeroUsersInput).dailyCost = 0 ∧
    (calculateCosts zeroUsersInput).backcheck =
      some
        { isValid := true
          details :=
            { inputTokensMatch := true
              outputTokensMatch := true
              totalMessagesMatch := true
              dailyCostMatch := true
              expectedValues :=
                { inputTokens := 0, outputTokens := 0, totalMessages := 0
                  dailyCost := 0 }
              actualValues :=
                { inputTokens := 0, outputTokens := 0, totalMessages := 0
                  dailyCost := 0 } } } := by
  have h := calculateCosts_zero_guard zeroUsersInput (Or.inl rfl)
  exact ⟨rfl, by rw [h], by rw [h]⟩

/-- C1: on a non-degenerate input the returned backcheck is internally
consistent with the result: the expected total messages equal
`dailyUsers × conversationsPerUser × messagesPerConversation`, the actual
total messages equal the result's `totalDailyMessages`, both match flags
hold, and `isValid` is `true`. -/
theorem calculateCosts_backcheck_consistent (input : CalculationInput)
    (h1 : input.dailyUsers ≠ 0) (h2 : input.conversationsPerUser ≠ 0)
    (h3 : input.messagesPerConversation ≠ 0) :
    ∃ b : BackcheckResult, (calculateCosts input).backcheck = some b ∧
      b.details.expectedValues.totalMessages =
        input.dailyUsers * input.conversationsPerUser *
          input.messagesPerConversation ∧
      b.details.actualValues.totalMessages =
        (calculateCosts input).totalDailyMessages ∧
      b.details.totalMessagesMatch = true ∧
      b.details.dailyCostMatch = true ∧
      b.isValid = true := by
  rw [calculateCosts_of_ne input h1 h2 h3]
  exact ⟨_, rfl, rfl, rfl, rfl, rfl, rfl⟩

/-- Witness for C1 at the reference configuration. -/
theorem calculateCosts_backcheck_consistent_witness :
    refInput.dailyUsers ≠ 0 ∧ refInput.conversationsPerUser ≠ 0 ∧
    refInput.messagesPerConversation ≠ 0 ∧
    (∃ b : BackcheckResult, (calculateCosts refInput).backcheck = some b ∧
      b.details.expectedValues.totalMessages =
        refInput.dailyUsers * refInput.conversationsPerUser *
          refInput.messagesPerConversation ∧
      b.details.actualValues.totalMessages =
        (calculateCosts refInput).totalDailyMessages ∧
      b.details.totalMessagesMatch = true ∧
      b.details.dailyCostMatch = true ∧
      b.isValid = true) :=
  ⟨by norm_num [refInput], by norm_num [refInput], by norm_num [refInput],
    calculateCosts_backcheck_consistent refInput (by norm_num [refInput])
      (by norm_num [refInput]) (by norm_num [refInput])⟩

/-- C3: for every input `monthlyCost = dailyCost × 30` and
`annualCost = dailyCost × 365` exactly; on the non-short-circuited path
`dailyCost` is the documented formula with prices defaulting to 0 on a
model miss; and the formula at the spec's precomputed values
(1320 input tokens, 100 output tokens, 1500 messages, prices 0.0025 and
0.01) yields exactly 6.45, 193.5 and 2354.25. -/
theorem calculateCosts_cost_scaling :
    (∀ input : CalculationInput,
      (calculateCosts input).monthlyCost = (calculateCosts input).dailyCost * 30 ∧
      (calculateCosts input).annualCost = (calculateCosts input).dailyCost * 365) ∧
    (∀ input : CalculationInput, input.dailyUsers ≠ 0 →
      input.conversationsPerUser ≠ 0 → input.messagesPerConversation ≠ 0 →
      (calculateCosts input).dailyCost =
        dailyCostFormula (totalInputTokensOf input) (outputTokensOf input)
          (totalDailyMessagesOf input)
          (optInputPrice (OPENAI_MODELS input.selectedModel))
          (optOutputPrice (OPENAI_MODELS input.selectedModel))) ∧
    dailyCostFormula 1320 100 1500 (1 / 400) (1 / 100) = 129 / 20 ∧
    dailyCostFormula 1320 100 1500 (1 / 400) (1 / 100) * 30 = 387 / 2 ∧
    dailyCostFormula 1320 100 1500 (1 / 400) (1 / 100) * 365 = 9417 / 4 := by
  refine ⟨?_, ?_, by rw [dailyCostFormula]; norm_num,
    by rw [dailyCostFormula]; norm_num, by rw [dailyCostFormula]; norm_num⟩
  · intro input
    by_cases h : input.dailyUsers = 0 ∨ input.conversationsPerUser = 0 ∨
      input.messagesPerConversation = 0
    · rw [calculateCosts, if_pos h]
      constructor <;> norm_num [zeroGuardResult]
    · push_neg at h
      rw [calculateCosts_of_ne input h.1 h.2.1 h.2.2]
      exact ⟨rfl, rfl⟩
  · intro input h1 h2 h3
    rw [calculateCosts_of_ne input h1 h2 h3]
    rfl

/-- Witness for C3 at the reference configuration. -/
theorem calculateCosts_cost_scaling_witness :
    (calculateCosts refInput).monthlyCost =
      (calculateCosts refInput).dailyCost * 30 ∧
    (calculateCosts refInput).dailyCost =
      dailyCostFormula (totalInputTokensOf refInput) (outputTokensOf refInput)
        (totalDailyMessagesOf refInput)
        (optInputPrice (OPENAI_MODELS refInput.selectedModel))
        (optOutputPrice (OPENAI_MODELS refInput.selectedModel)) :=
  ⟨(calculateCosts_cost_scaling.1 refInput).1,
    calculateCosts_cost_scaling.2.1 refInput (by norm_num [refInput])
      (by norm_num [refInput]) (by norm_num [refInput])⟩

/-- C5: on the non-short-circuited path with message count the natural
number `n`, the reported `averageHistoryTokens` is the JavaScript rounding
(round half towards +∞, not ceiling) of the unrounded average
`(Σ_{i<n} i·(queryTokens+outputTokens)) / n`, the unrounded average is what
enters `totalInputTokens`, and with one message per conversation the
reported average is 0. -/
theorem calculateCosts_average_history (input : CalculationInput) (n : ℕ)
    (hn : n ≠ 0) (hmsg : input.messagesPerConversation = (n : ℚ))
    (h1 : input.dailyUsers ≠ 0) (h2 : input.conversationsPerUser ≠ 0) :
    (calculateCosts input).averageHistoryTokens =
      jsRound ((∑ i ∈ Finset.range n,
        (i : ℚ) * (queryTokensOf input + outputTokensOf input)) / (n : ℚ)) ∧
    totalInputTokensOf input =
      input.chunksPerQuery * chunkTokensOf input + queryTokensOf input +
        (∑ i ∈ Finset.range n,
          (i : ℚ) * (queryTokensOf input + outputTokensOf input)) / (n : ℚ) ∧
    (n = 1 → (calculateCosts input).averageHistoryTokens = 0) := by
  have h3 : input.messagesPerConversation ≠ 0 := by
    rw [hmsg]
    exact Nat.cast_ne_zero.mpr hn
  have havg : averageHistoryTokensOf input =
      (∑ i ∈ Finset.range n,
        (i : ℚ) * (queryTokensOf input + outputTokensOf input)) / (n : ℚ) := by
    rw [averageHistoryTokensOf, totalHistoryTokensOf_sum input n hmsg, hmsg]
  refine ⟨?_, ?_, ?_⟩
  · rw [calculateCosts_of_ne input h1 h2 h3]
    show jsRound (averageHistoryTokensOf input) = _
    rw [havg]
  · rw [totalInputTokensOf, havg]
  · intro h1'
    subst h1'
    rw [calculateCosts_of_ne input h1 h2 h3]
    show jsRound (averageHistoryTokensOf input) = 0
    rw [havg]
    have hz : (∑ i ∈ Finset.range 1,
        (i : ℚ) * (queryTokensOf input + outputTokensOf input)) /
        ((1 : ℕ) : ℚ) = 0 := by
      simp
    rw [hz]
    exact jsRound_eval 0 0 (by norm_num) (by norm_num)

/-- Witness for C5 at the reference configuration with one message per
conversation. -/
theorem calculateCosts_average_history_witness :
    (1 : ℕ) ≠ 0 ∧ oneMsgInput.messagesPerConversation = ((1 : ℕ) : ℚ) ∧
    (calculateCosts oneMsgInput).averageHistoryTokens = 0 :=
  ⟨by norm_num, by norm_num [oneMsgInput, refInput],
    (calculateCosts_average_history oneMsgInput 1 (by norm_num)
      (by norm_num [oneMsgInput, refInput])
      (by norm_num [oneMsgInput, refInput])
      (by norm_num [oneMsgInput, refInput])).2.2 rfl⟩

/-- C6: with a model identifier absent from the price table (and non-zero
usage counts), token, word and message counts are computed normally but
all five cost fields are 0 and the backcheck is valid. -/
theorem calculateCosts_unresolved_model (input : CalculationInput)
    (hm : OPENAI_MODELS input.selectedModel = none)
    (h1 : input.dailyUsers ≠ 0) (h2 : input.conversationsPerUser ≠ 0)
    (h3 : input.messagesPerConversation ≠ 0) :
    (calculateCosts input).dailyCost = 0 ∧
    (calculateCosts input).monthlyCost = 0 ∧
    (calculateCosts input).annualCost = 0 ∧
    (calculateCosts input).costPerMessage = 0 ∧
    (calculateCosts input).costPerUser = 0 ∧
    (calculateCosts input).tokensPerMessage =
      totalInputTokensOf input + outputTokensOf input ∧
    (calculateCosts input).wordsPerMessage =
      tokensToWords (totalInputTokensOf input + outputTokensOf input) ∧
    (calculateCosts input).totalDailyMessages = totalDailyMessagesOf input ∧
    ∃ b : BackcheckResult, (calculateCosts input).backcheck = some b ∧
      b.isValid = true := by
  have hd : dailyCostOf input = 0 := by
    rw [dailyCostOf, hm, dailyCostFormula]
    simp [optInputPrice, optOutputPrice]
  rw [calculateCosts_of_ne input h1 h2 h3]
  refine ⟨hd, ?_, ?_, ?_, ?_, rfl, rfl, rfl, ⟨_, rfl, rfl⟩⟩
  · show dailyCostOf input * 30 = 0
    rw [hd]
    norm_num
  · show dailyCostOf input * 365 = 0
    rw [hd]
    norm_num
  · show (if totalDailyMessagesOf input > 0 then
      dailyCostOf input * 30 / (totalDailyMessagesOf input * 30) else 0) = 0
    rw [hd]
    split <;> norm_num
  · show (if input.dailyUsers > 0 then
      dailyCostOf input * 30 / input.dailyUsers else 0) = 0
    rw [hd]
    split <;> norm_num

/-- Witness for C6 at the reference configuration with an unknown model
identifier. -/
theorem calculateCosts_unresolved_model_witness :
    OPENAI_MODELS noModelInput.selectedModel = none ∧
    (calculateCosts noModelInput).dailyCost = 0 ∧
    (calculateCosts noModelInput).monthlyCost = 0 ∧
    (calculateCosts noModelInput).annualCost = 0 :=
  ⟨rfl,
    (calculateCosts_unresolved_model noModelInput rfl
      (by norm_num [noModelInput, refInput]) (by norm_num [noModelInput, refInput])
      (by norm_num [noModelInput, refInput])).1,
    (calculateCosts_unresolved_model noModelInput rfl
      (by norm_num [noModelInput, refInput]) (by norm_num [noModelInput, refInput])
      (by norm_num [noModelInput, refInput])).2.1,
    (calculateCosts_unresolved_model noModelInput rfl
      (by norm_num [noModelInput, refInput]) (by norm_num [noModelInput, refInput])
      (by norm_num [noModelInput, refInput])).2.2.1⟩

/-- C10: the zero-guard tests exact equality with 0 only, so negative
usage counts bypass it: with negative `dailyUsers` and positive other
counts the result's `totalDailyMessages` is the (negative) product, and at
the reference configuration with `dailyUsers = -1` and the priced `gpt-4o`
model the daily cost is the negative value -813/20000. -/
theorem negative_inputs_propagate :
    (∀ input : CalculationInput, input.dailyUsers < 0 →
      0 < input.conversationsPerUser → 0 < input.messagesPerConversation →
      (calculateCosts input).totalDailyMessages =
        input.dailyUsers * input.conversationsPerUser *
          input.messagesPerConversation ∧
      (calculateCosts input).totalDailyMessages < 0) ∧
    (calculateCosts negUsersInput).totalDailyMessages = -15 ∧
    (calculateCosts negUsersInput).dailyCost = -813 / 20000 ∧
    (calculateCosts negUsersInput).dailyCost < 0 := by
  have hconc : (calculateCosts negUsersInput).dailyCost = -813 / 20000 := by
    rw [calculateCosts_of_ne negUsersInput (by norm_num [negUsersInput, refInput])
      (by norm_num [negUsersInput, refInput]) (by norm_num [negUsersInput, refInput])]
    show dailyCostOf negUsersInput = -813 / 20000
    rw [dailyCostOf_gpt4o negUsersInput rfl rfl rfl rfl rfl]
    norm_num [totalDailyMessagesOf, negUsersInput, refInput]
  refine ⟨?_, ?_, hconc, by rw [hconc]; norm_num⟩
  · intro input hu hc hn
    rw [calculateCosts_of_ne input (ne_of_lt hu) (ne_of_gt hc) (ne_of_gt hn)]
    constructor
    · rfl
    · show totalDailyMessagesOf input < 0
      rw [totalDailyMessagesOf]
      have h1 : input.dailyUsers * input.conversationsPerUser < 0 :=
        mul_neg_of_neg_of_pos hu hc
      exact mul_neg_of_neg_of_pos h1 hn
  · rw [calculateCosts_of_ne negUsersInput (by norm_num [negUsersInput, refInput])
      (by norm_num [negUsersInput, refInput]) (by norm_num [negUsersInput, refInput])]
    show totalDailyMessagesOf negUsersInput = -15
    norm_num [totalDailyMessagesOf, negUsersInput, refInput]

/-- Witness for C10 at the reference configuration with `dailyUsers = -1`. -/
theorem negative_inputs_propagate_witness :
    negUsersInput.dailyUsers < 0 ∧ 0 < negUsersInput.conversationsPerUser ∧
    0 < negUsersInput.messagesPerConversation ∧
    (calculateCosts negUsersInput).totalDailyMessages =
      negUsersInput.dailyUsers * negUsersInput.conversationsPerUser *
        negUsersInput.messagesPerConversation ∧
    (calculateCosts negUsersInput).totalDailyMessages < 0 :=
  ⟨by norm_num [negUsersInput, refInput], by norm_num [negUsersInput, refInput],
    by norm_num [negUsersInput, refInput],
    (negative_inputs_propagate.1 negUsersInput
      (by norm_num [negUsersInput, refInput]) (by norm_num [negUsersInput, refInput])
      (by norm_num [negUsersInput, refInput])).1,
    (negative_inputs_propagate.1 negUsersInput
      (by norm_num [negUsersInput, refInput]) (by norm_num [negUsersInput, refInput])
      (by norm_num [negUsersInput, refInput])).2⟩

/-- C9 counterexample: the claim "increasing any one of the three usage
counts strictly increases `totalDailyMessages`, and with a positively
priced model strictly increases `dailyCost`" is false as stated, for every
configuration.  With `conversationsPerUser = -1`, raising `dailyUsers`
from 100 to 101 moves `totalDailyMessages` from -500 down to -505; and
with all three counts positive but `chunksPerQuery = -100` under the
positively priced `gpt-4o` model, raising `dailyUsers` strictly decreases
`dailyCost`. -/
theorem calculateCosts_monotone_cex :
    (calculateCosts negConvInput).totalDailyMessages = -500 ∧
    (calculateCosts { negConvInput with dailyUsers := 101 }).totalDailyMessages = -505 ∧
    ¬ ((calculateCosts negConvInput).totalDailyMessages <
        (calculateCosts { negConvInput with dailyUsers := 101 }).totalDailyMessages) ∧
    OPENAI_MODELS negChunksInput.selectedModel =
      some { name := "GPT-40"
             model_desc := "Latest model with vision capabilities, 128K context (Oct 2023)"
             inputPrice := 1 / 400
             outputPrice := 1 / 100 } ∧
    (0 : ℚ) < 1 / 400 ∧ (0 : ℚ) < 1 / 100 ∧
    0 < negChunksInput.dailyUsers ∧ 0 < negChunksInput.conversationsPerUser ∧
    0 < negChunksInput.messagesPerConversation ∧
    (calculateCosts negChunksInput).dailyCost = -2442 / 25 ∧
    (calculateCosts { negChunksInput with dailyUsers := 101 }).dailyCost =
      -123321 / 1250 ∧
    ¬ ((calculateCosts negChunksInput).dailyCost <
        (calculateCosts { negChunksInput with dailyUsers := 101 }).dailyCost) := by
  have e1 : (calculateCosts negConvInput).totalDailyMessages = -500 := by
    rw [calculateCosts_of_ne negConvInput (by norm_num [negConvInput, refInput])
      (by norm_num [negConvInput, refInput]) (by norm_num [negConvInput, refInput])]
    show totalDailyMessagesOf negConvInput = -500
    norm_num [totalDailyMessagesOf, negConvInput, refInput]
  have e2 : (calculateCosts { negConvInput with dailyUsers := 101 }).totalDailyMessages = -505 := by
    rw [calculateCosts_of_ne _ (by norm_num [negConvInput, refInput])
      (by norm_num [negConvInput, refInput]) (by norm_num [negConvInput, refInput])]
    show totalDailyMessagesOf { negConvInput with dailyUsers := 101 } = -505
    norm_num [totalDailyMessagesOf, negConvInput, refInput]
  have e3 : (calculateCosts negChunksInput).dailyCost = -2442 / 25 := by
    rw [calculateCosts_of_ne negChunksInput (by norm_num [negChunksInput, refInput])
      (by norm_num [negChunksInput, refInput]) (by norm_num [negChunksInput, refInput])]
    show dailyCostOf negChunksInput = -2442 / 25
    rw [dailyCostOf_gpt4o negChunksInput rfl rfl rfl rfl rfl]
    norm_num [totalDailyMessagesOf, negChunksInput, refInput]
  have e4 : (calculateCosts { negChunksInput with dailyUsers := 101 }).dailyCost =
      -123321 / 1250 := by
    rw [calculateCosts_of_ne _ (by norm_num [negChunksInput, refInput])
      (by norm_num [negChunksInput, refInput]) (by norm_num [negChunksInput, refInput])]
    show dailyCostOf { negChunksInput with dailyUsers := 101 } = -123321 / 1250
    rw [dailyCostOf_gpt4o { negChunksInput with dailyUsers := 101 } rfl rfl rfl rfl rfl]
    norm_num [totalDailyMessagesOf, negChunksInput, refInput]
  refine ⟨e1, e2, ?_, rfl, by norm_num, by norm_num,
    by norm_num [negChunksInput, refInput], by norm_num [negChunksInput, refInput],
    by norm_num [negChunksInput, refInput], e3, e4, ?_⟩
  · rw [e1, e2]
    norm_num
  · rw [e3, e4]
    norm_num

/-- C9 amended: for a configuration whose three usage counts are positive,
increasing any one of them strictly increases `totalDailyMessages`; and
when additionally the selected model resolves to an entry with positive
input and output prices, `chunksPerQuery` is nonnegative, `responseWords`
is positive, and (for the messages-per-conversation direction) the message
counts are natural numbers, increasing any one of the three counts
strictly increases `dailyCost`. -/
theorem calculateCosts_monotone_pos (input : CalculationInput)
    (hu : 0 < input.dailyUsers) (hc : 0 < input.conversationsPerUser)
    (hn : 0 < input.messagesPerConversation) :
    (∀ x : ℚ, input.dailyUsers < x →
      (calculateCosts input).totalDailyMessages <
        (calculateCosts { input with dailyUsers := x }).totalDailyMessages) ∧
    (∀ x : ℚ, input.conversationsPerUser < x →
      (calculateCosts input).totalDailyMessages <
        (calculateCosts { input with conversationsPerUser := x }).totalDailyMessages) ∧
    (∀ x : ℚ, input.messagesPerConversation < x →
      (calculateCosts input).totalDailyMessages <
        (calculateCosts { input with messagesPerConversation := x }).totalDailyMessages) ∧
    (∀ model : OpenAIModel, OPENAI_MODELS input.selectedModel = some model →
      0 < model.inputPrice → 0 < model.outputPrice →
      0 ≤ input.chunksPerQuery → 0 < input.responseWords →
      (∀ x : ℚ, input.dailyUsers < x →
        (calculateCosts input).dailyCost <
          (calculateCosts { input with dailyUsers := x }).dailyCost) ∧
      (∀ x : ℚ, input.conversationsPerUser < x →
        (calculateCosts input).dailyCost <
          (calculateCosts { input with conversationsPerUser := x }).dailyCost) ∧
      (∀ n m : ℕ, input.messagesPerConversation = (n : ℚ) → n < m →
        (calculateCosts input).dailyCost <
          (calculateCosts { input with messagesPerConversation := (m : ℚ) }).dailyCost)) := by
  have h1 : input.dailyUsers ≠ 0 := ne_of_gt hu
  have h2 : input.conversationsPerUser ≠ 0 := ne_of_gt hc
  have h3 : input.messagesPerConversation ≠ 0 := ne_of_gt hn
  refine ⟨?_, ?_, ?_, ?_⟩
  · intro x hx
    rw [calculateCosts_of_ne input h1 h2 h3,
      calculateCosts_of_ne { input with dailyUsers := x } (ne_of_gt (hu.trans hx)) h2 h3]
    show totalDailyMessagesOf input < totalDailyMessagesOf { input with dailyUsers := x }
    have e : totalDailyMessagesOf { input with dailyUsers := x } =
        x * input.conversationsPerUser * input.messagesPerConversation := rfl
    rw [e, totalDailyMessagesOf]
    exact mul_lt_mul_of_pos_right (mul_lt_mul_of_pos_right hx hc) hn
  · intro x hx
    rw [calculateCosts_of_ne input h1 h2 h3,
      calculateCosts_of_ne { input with conversationsPerUser := x } h1 (ne_of_gt (hc.trans hx)) h3]
    show totalDailyMessagesOf input < totalDailyMessagesOf { input with conversationsPerUser := x }
    have e : totalDailyMessagesOf { input with conversationsPerUser := x } =
        input.dailyUsers * x * input.messagesPerConversation := rfl
    rw [e, totalDailyMessagesOf]
    exact mul_lt_mul_of_pos_right (mul_lt_mul_of_pos_left hx hu) hn
  · intro x hx
    rw [calculateCosts_of_ne input h1 h2 h3,
      calculateCosts_of_ne { input with messagesPerConversation := x } h1 h2 (ne_of_gt (hn.trans hx))]
    show totalDailyMessagesOf input < totalDailyMessagesOf { input with messagesPerConversation := x }
    have e : totalDailyMessagesOf { input with messagesPerConversation := x } =
        input.dailyUsers * input.conversationsPerUser * x := rfl
    rw [e, totalDailyMessagesOf]
    exact mul_lt_mul_of_pos_left hx (mul_pos hu hc)
  · intro model hm hp hq hcq hrw
    have hk : 0 < totalInputTokensOf input *
        optInputPrice (OPENAI_MODELS input.selectedModel) +
        outputTokensOf input * optOutputPrice (OPENAI_MODELS input.selectedModel) :=
      cost_factor_pos input model hm hp hq hn hcq hrw
    refine ⟨?_, ?_, ?_⟩
    · intro x hx
      rw [calculateCosts_of_ne input h1 h2 h3,
        calculateCosts_of_ne { input with dailyUsers := x } (ne_of_gt (hu.trans hx)) h2 h3]
      show dailyCostOf input < dailyCostOf { input with dailyUsers := x }
      rw [dailyCostOf_factor, dailyCostOf_factor]
      have e1 : totalInputTokensOf { input with dailyUsers := x } =
          totalInputTokensOf input := rfl
      have e2 : outputTokensOf { input with dailyUsers := x } =
          outputTokensOf input := rfl
      have e3 : OPENAI_MODELS ({ input with dailyUsers := x } : CalculationInput).selectedModel =
          OPENAI_MODELS input.selectedModel := rfl
      have e4 : totalDailyMessagesOf { input with dailyUsers := x } =
          x * input.conversationsPerUser * input.messagesPerConversation := rfl
      rw [e1, e2, e3, e4, totalDailyMessagesOf]
      nlinarith [mul_pos (mul_pos (sub_pos.mpr hx) (mul_pos hc hn)) hk]
    · intro x hx
      rw [calculateCosts_of_ne input h1 h2 h3,
        calculateCosts_of_ne { input with conversationsPerUser := x } h1 (ne_of_gt (hc.trans hx)) h3]
      show dailyCostOf input < dailyCostOf { input with conversationsPerUser := x }
      rw [dailyCostOf_factor, dailyCostOf_factor]
      have e1 : totalInputTokensOf { input with conversationsPerUser := x } =
          totalInputTokensOf input := rfl
      have e2 : outputTokensOf { input with conversationsPerUser := x } =
          outputTokensOf input := rfl
      have e3 : OPENAI_MODELS ({ input with conversationsPerUser := x } : CalculationInput).selectedModel =
          OPENAI_MODELS input.selectedModel := rfl
      have e4 : totalDailyMessagesOf { input with conversationsPerUser := x } =
          input.dailyUsers * x * input.messagesPerConversation := rfl
      rw [e1, e2, e3, e4, totalDailyMessagesOf]
      nlinarith [mul_pos (mul_pos (sub_pos.mpr hx) (mul_pos hu hn)) hk]
    · intro n m hmsg hnm
      have hn0 : n ≠ 0 := by
        intro h0
        rw [h0, Nat.cast_zero] at hmsg
        exact h3 hmsg
      have hm0 : m ≠ 0 := by omega
      have hnm' : (n : ℚ) < (m : ℚ) := by exact_mod_cast hnm
      have hmQ : (0:ℚ) < (m : ℚ) := by positivity
      rw [calculateCosts_of_ne input h1 h2 h3,
        calculateCosts_of_ne { input with messagesPerConversation := (m : ℚ) } h1 h2 (Nat.cast_ne_zero.mpr hm0)]
      show dailyCostOf input < dailyCostOf { input with messagesPerConversation := (m : ℚ) }
      rw [dailyCostOf_factor, dailyCostOf_factor]
      have eq1 : queryTokensOf { input with messagesPerConversation := (m : ℚ) } =
          queryTokensOf input := rfl
      have eq2 : outputTokensOf { input with messagesPerConversation := (m : ℚ) } =
          outputTokensOf input := rfl
      have eq3 : chunkTokensOf { input with messagesPerConversation := (m : ℚ) } =
          chunkTokensOf input := rfl
      have eq4 : OPENAI_MODELS ({ input with messagesPerConversation := (m : ℚ) } : CalculationInput).selectedModel =
          OPENAI_MODELS input.selectedModel := rfl
      have eq5 : totalDailyMessagesOf { input with messagesPerConversation := (m : ℚ) } =
          input.dailyUsers * input.conversationsPerUser * (m : ℚ) := rfl
      have havg1 := averageHistoryTokensOf_eq input n hn0 hmsg
      have havg2 := averageHistoryTokensOf_eq
        { input with messagesPerConversation := (m : ℚ) } m hm0 rfl
      rw [eq1, eq2] at havg2
      have htIT : totalInputTokensOf { input with messagesPerConversation := (m : ℚ) } =
          totalInputTokensOf input +
            (queryTokensOf input + outputTokensOf input) * ((m : ℚ) - (n : ℚ)) / 2 := by
        simp only [totalInputTokensOf, eq1, eq3, havg1, havg2]
        ring
      rw [eq2, eq4, eq5, htIT, totalDailyMessagesOf, hmsg]
      have hA : 0 ≤ queryTokensOf input + outputTokensOf input :=
        add_nonneg (wordsToTokens_nonneg _) (wordsToTokens_nonneg _)
      have htITn : 0 ≤ totalInputTokensOf input := totalInputTokensOf_nonneg input hn hcq
      have hp' : optInputPrice (OPENAI_MODELS input.selectedModel) = model.inputPrice := by
        rw [hm, optInputPrice]
      have hq' : optOutputPrice (OPENAI_MODELS input.selectedModel) = model.outputPrice := by
        rw [hm, optOutputPrice]
      rw [hp', hq'] at hk ⊢
      have hdu : 0 < input.dailyUsers * input.conversationsPerUser := mul_pos hu hc
      have hnQ : (0:ℚ) < (n : ℚ) := by rw [← hmsg]; exact hn
      nlinarith [mul_pos (mul_pos hdu (sub_pos.mpr hnm')) hk,
        mul_nonneg (mul_nonneg (mul_nonneg hdu.le hmQ.le)
          (mul_nonneg hA (by linarith : (0:ℚ) ≤ (m : ℚ) - (n : ℚ)))) hp.le,
        mul_pos hdu hnQ]

/-- Witness for C9 at the reference configuration, raising `dailyUsers`
from 100 to 101. -/
theorem calculateCosts_monotone_pos_witness :
    0 < refInput.dailyUsers ∧ 0 < refInput.conversationsPerUser ∧
    0 < refInput.messagesPerConversation ∧
    (calculateCosts refInput).totalDailyMessages <
      (calculateCosts { refInput with dailyUsers := 101 }).totalDailyMessages ∧
    (calculateCosts refInput).dailyCost <
      (calculateCosts { refInput with dailyUsers := 101 }).dailyCost :=
  ⟨by norm_num [refInput], by norm_num [refInput], by norm_num [refInput],
    (calculateCosts_monotone_pos refInput (by norm_num [refInput])
      (by norm_num [refInput]) (by norm_num [refInput])).1 101
      (by norm_num [refInput]),
    ((calculateCosts_monotone_pos refInput (by norm_num [refInput])
      (by norm_num [refInput]) (by norm_num [refInput])).2.2.2
      { name := "GPT-40"
        model_desc := "Latest model with vision capabilities, 128K context (Oct 2023)"
        inputPrice := 1 / 400
        outputPrice := 1 / 100 } rfl (by norm_num) (by norm_num)
      (by norm_num [refInput]) (by norm_num [refInput])).1 101
      (by norm_num [refInput])⟩

end RagCost
